import Mathlib

/-!
Shallow embedding of the winmtp Object Tree Navigator & Transfer Engine
(src/object/mod.rs, src/object/object_type.rs, src/object/object_iterator.rs,
src/io/mod.rs, src/device/content.rs, src/utils.rs, src/error.rs).

Remote round trips to the physical device are modelled by an explicit device
tree plus scripted call outcomes; every embedded operation additionally
returns the list of remote calls it issued, so that claims about which
round trips are (not) performed can be stated.
-/

namespace Winmtp

/-- A 128-bit COM GUID, mirroring `windows::core::GUID` (`data1 : u32`,
`data2 : u16`, `data3 : u16`, `data4 : [u8; 8]`; the 8 tail bytes are packed
big-endian into one natural number). -/
structure GUID where
  data1 : Nat
  data2 : Nat
  data3 : Nat
  data4 : Nat
deriving DecidableEq

/-- `WPD_CONTENT_TYPE_APPOINTMENT` = {0FED060E-8793-4B1E-90C9-48AC389AC631}. -/
def WPD_CONTENT_TYPE_APPOINTMENT : GUID := ⟨0x0FED060E, 0x8793, 0x4B1E, 0x90C948AC389AC631⟩

/-- `WPD_CONTENT_TYPE_AUDIO` = {4AD2C85E-5E2D-45E5-8864-4F229E3C6CF0}. -/
def WPD_CONTENT_TYPE_AUDIO : GUID := ⟨0x4AD2C85E, 0x5E2D, 0x45E5, 0x88644F229E3C6CF0⟩

/-- `WPD_CONTENT_TYPE_AUDIO_ALBUM` = {AA18737E-5009-48FA-AE21-85F24383B4E6}. -/
def WPD_CONTENT_TYPE_AUDIO_ALBUM : GUID := ⟨0xAA18737E, 0x5009, 0x48FA, 0xAE2185F24383B4E6⟩

/-- `WPD_CONTENT_TYPE_CALENDAR` = {A1FD5967-6023-49A0-9DF1-F8060BE751B0}. -/
def WPD_CONTENT_TYPE_CALENDAR : GUID := ⟨0xA1FD5967, 0x6023, 0x49A0, 0x9DF1F8060BE751B0⟩

/-- `WPD_CONTENT_TYPE_CERTIFICATE` = {DC3876E8-A948-4060-9050-CBD77E8A3D87}. -/
def WPD_CONTENT_TYPE_CERTIFICATE : GUID := ⟨0xDC3876E8, 0xA948, 0x4060, 0x9050CBD77E8A3D87⟩

/-- `WPD_CONTENT_TYPE_CONTACT` = {EABA8313-4525-4707-9F0E-87C6808E9435}. -/
def WPD_CONTENT_TYPE_CONTACT : GUID := ⟨0xEABA8313, 0x4525, 0x4707, 0x9F0E87C6808E9435⟩

/-- `WPD_CONTENT_TYPE_CONTACT_GROUP` = {346B8932-4C36-40D8-9415-1828291F9DE9}. -/
def WPD_CONTENT_TYPE_CONTACT_GROUP : GUID := ⟨0x346B8932, 0x4C36, 0x40D8, 0x94151828291F9DE9⟩

/-- `WPD_CONTENT_TYPE_DOCUMENT` = {680ADF52-950A-4041-9B41-65E393648155}. -/
def WPD_CONTENT_TYPE_DOCUMENT : GUID := ⟨0x680ADF52, 0x950A, 0x4041, 0x9B4165E393648155⟩

/-- `WPD_CONTENT_TYPE_EMAIL` = {8038044A-7E51-4F8F-883D-1D0623D14533}. -/
def WPD_CONTENT_TYPE_EMAIL : GUID := ⟨0x8038044A, 0x7E51, 0x4F8F, 0x883D1D0623D14533⟩

/-- `WPD_CONTENT_TYPE_FOLDER` = {27E2E392-A111-48E0-AB0C-E17705A05F85}. -/
def WPD_CONTENT_TYPE_FOLDER : GUID := ⟨0x27E2E392, 0xA111, 0x48E0, 0xAB0CE17705A05F85⟩

/-- `WPD_CONTENT_TYPE_FUNCTIONAL_OBJECT` = {99ED0160-17FF-4C44-9D98-1D7A6F941921}. -/
def WPD_CONTENT_TYPE_FUNCTIONAL_OBJECT : GUID := ⟨0x99ED0160, 0x17FF, 0x4C44, 0x9D981D7A6F941921⟩

/-- `WPD_CONTENT_TYPE_GENERIC_FILE` = {0085E0A6-8D34-45D7-BC5C-447E59C73D48}. -/
def WPD_CONTENT_TYPE_GENERIC_FILE : GUID := ⟨0x0085E0A6, 0x8D34, 0x45D7, 0xBC5C447E59C73D48⟩

/-- `WPD_CONTENT_TYPE_GENERIC_MESSAGE` = {E80EAAF8-B2DB-4133-B67E-1BEF4B4A6E5F}. -/
def WPD_CONTENT_TYPE_GENERIC_MESSAGE : GUID := ⟨0xE80EAAF8, 0xB2DB, 0x4133, 0xB67E1BEF4B4A6E5F⟩

/-- `WPD_CONTENT_TYPE_IMAGE` = {EF2107D5-A52A-4243-A26B-62D4176D7603}. -/
def WPD_CONTENT_TYPE_IMAGE : GUID := ⟨0xEF2107D5, 0xA52A, 0x4243, 0xA26B62D4176D7603⟩

/-- `WPD_CONTENT_TYPE_IMAGE_ALBUM` = {75793148-15F5-4A30-A813-54ED8A37E226}. -/
def WPD_CONTENT_TYPE_IMAGE_ALBUM : GUID := ⟨0x75793148, 0x15F5, 0x4A30, 0xA81354ED8A37E226⟩

/-- `WPD_CONTENT_TYPE_MEDIA_CAST` = {5E88B3CC-3E65-4E62-BFFF-229495253AB0}. -/
def WPD_CONTENT_TYPE_MEDIA_CAST : GUID := ⟨0x5E88B3CC, 0x3E65, 0x4E62, 0xBFFF229495253AB0⟩

/-- `WPD_CONTENT_TYPE_MEMO` = {9CD20ECF-3B50-414F-A641-E473FFE45751}. -/
def WPD_CONTENT_TYPE_MEMO : GUID := ⟨0x9CD20ECF, 0x3B50, 0x414F, 0xA641E473FFE45751⟩

/-- `WPD_CONTENT_TYPE_MIXED_CONTENT_ALBUM` = {00F0C3AC-A593-49AC-9219-24ABCA5A2563}. -/
def WPD_CONTENT_TYPE_MIXED_CONTENT_ALBUM : GUID := ⟨0x00F0C3AC, 0xA593, 0x49AC, 0x921924ABCA5A2563⟩

/-- `WPD_CONTENT_TYPE_NETWORK_ASSOCIATION` = {031DA7EE-18C8-4205-847E-89A11261D0F3}. -/
def WPD_CONTENT_TYPE_NETWORK_ASSOCIATION : GUID := ⟨0x031DA7EE, 0x18C8, 0x4205, 0x847E89A11261D0F3⟩

/-- `WPD_CONTENT_TYPE_PLAYLIST` = {1A33F7E4-AF13-48F5-994E-77369DFE04A3}. -/
def WPD_CONTENT_TYPE_PLAYLIST : GUID := ⟨0x1A33F7E4, 0xAF13, 0x48F5, 0x994E77369DFE04A3⟩

/-- `WPD_CONTENT_TYPE_PROGRAM` = {D269F96A-247C-4BFF-98FB-97F3C49220E6}. -/
def WPD_CONTENT_TYPE_PROGRAM : GUID := ⟨0xD269F96A, 0x247C, 0x4BFF, 0x98FB97F3C49220E6⟩

/-- `WPD_CONTENT_TYPE_SECTION` = {821089F5-1D91-4DC9-BE3C-BBB1B35B18CE}. -/
def WPD_CONTENT_TYPE_SECTION : GUID := ⟨0x821089F5, 0x1D91, 0x4DC9, 0xBE3CBBB1B35B18CE⟩

/-- `WPD_CONTENT_TYPE_TASK` = {63252F2C-887F-4CB6-B1AC-D29855DCEF6C}. -/
def WPD_CONTENT_TYPE_TASK : GUID := ⟨0x63252F2C, 0x887F, 0x4CB6, 0xB1ACD29855DCEF6C⟩

/-- `WPD_CONTENT_TYPE_TELEVISION` = {60A169CF-F2AE-4E21-9375-9677F11C1C6E}. -/
def WPD_CONTENT_TYPE_TELEVISION : GUID := ⟨0x60A169CF, 0xF2AE, 0x4E21, 0x93759677F11C1C6E⟩

/-- `WPD_CONTENT_TYPE_UNSPECIFIED` = {28D8D31E-249C-454E-AABC-34883168E634}. -/
def WPD_CONTENT_TYPE_UNSPECIFIED : GUID := ⟨0x28D8D31E, 0x249C, 0x454E, 0xAABC34883168E634⟩

/-- `WPD_CONTENT_TYPE_VIDEO` = {9261B03C-3D78-4519-85E3-02C5E1F50BB9}. -/
def WPD_CONTENT_TYPE_VIDEO : GUID := ⟨0x9261B03C, 0x3D78, 0x4519, 0x85E302C5E1F50BB9⟩

/-- `WPD_CONTENT_TYPE_VIDEO_ALBUM` = {012B0DB7-D4C1-45D6-B081-94B87779614F}. -/
def WPD_CONTENT_TYPE_VIDEO_ALBUM : GUID := ⟨0x012B0DB7, 0xD4C1, 0x45D6, 0xB08194B87779614F⟩

/-- `WPD_CONTENT_TYPE_WIRELESS_PROFILE` = {0BAC070A-9F5F-4DA4-A8F6-3DE44D68FD6C}. -/
def WPD_CONTENT_TYPE_WIRELESS_PROFILE : GUID := ⟨0x0BAC070A, 0x9F5F, 0x4DA4, 0xA8F63DE44D68FD6C⟩

/-- `WPD_CONTENT_TYPE_ALL` = {80E170D2-1055-4A3E-B952-82CC4F8A8689}. -/
def WPD_CONTENT_TYPE_ALL : GUID := ⟨0x80E170D2, 0x1055, 0x4A3E, 0xB95282CC4F8A8689⟩

/-- `ObjectType` enum from `src/object/object_type.rs`. -/
inductive ObjectType where
  | All
  | Appointment
  | Audio
  | AudioAlbum
  | Calendar
  | Certificate
  | Contact
  | ContactGroup
  | Document
  | Email
  | Folder
  | FunctionalObject
  | GenericFile
  | GenericMessage
  | Image
  | ImageAlbum
  | MediaCast
  | Memo
  | MixedContentAlbum
  | NetworkAssociation
  | Playlist
  | Program
  | Section
  | Task
  | Television
  | Unspecified
  | Video
  | VideoAlbum
  | WirelessProfile
  | Unknown
deriving DecidableEq

/-- `ObjectType::from_guid` (`src/object/object_type.rs`): the Rust `match` on
constant GUID patterns becomes the same ordered chain of equality tests, with
the wildcard arm giving `Unknown`. -/
def ObjectType.from_guid (guid : GUID) : ObjectType :=
  if guid = WPD_CONTENT_TYPE_APPOINTMENT then .Appointment
  else if guid = WPD_CONTENT_TYPE_AUDIO then .Audio
  else if guid = WPD_CONTENT_TYPE_AUDIO_ALBUM then .AudioAlbum
  else if guid = WPD_CONTENT_TYPE_CALENDAR then .Calendar
  else if guid = WPD_CONTENT_TYPE_CERTIFICATE then .Certificate
  else if guid = WPD_CONTENT_TYPE_CONTACT then .Contact
  else if guid = WPD_CONTENT_TYPE_CONTACT_GROUP then .ContactGroup
  else if guid = WPD_CONTENT_TYPE_DOCUMENT then .Document
  else if guid = WPD_CONTENT_TYPE_EMAIL then .Email
  else if guid = WPD_CONTENT_TYPE_FOLDER then .Folder
  else if guid = WPD_CONTENT_TYPE_FUNCTIONAL_OBJECT then .FunctionalObject
  else if guid = WPD_CONTENT_TYPE_GENERIC_FILE then .GenericFile
  else if guid = WPD_CONTENT_TYPE_GENERIC_MESSAGE then .GenericMessage
  else if guid = WPD_CONTENT_TYPE_IMAGE then .Image
  else if guid = WPD_CONTENT_TYPE_IMAGE_ALBUM then .ImageAlbum
  else if guid = WPD_CONTENT_TYPE_MEDIA_CAST then .MediaCast
  else if guid = WPD_CONTENT_TYPE_MEMO then .Memo
  else if guid = WPD_CONTENT_TYPE_MIXED_CONTENT_ALBUM then .MixedContentAlbum
  else if guid = WPD_CONTENT_TYPE_NETWORK_ASSOCIATION then .NetworkAssociation
  else if guid = WPD_CONTENT_TYPE_PLAYLIST then .Playlist
  else if guid = WPD_CONTENT_TYPE_PROGRAM then .Program
  else if guid = WPD_CONTENT_TYPE_SECTION then .Section
  else if guid = WPD_CONTENT_TYPE_TASK then .Task
  else if guid = WPD_CONTENT_TYPE_TELEVISION then .Television
  else if guid = WPD_CONTENT_TYPE_UNSPECIFIED then .Unspecified
  else if guid = WPD_CONTENT_TYPE_VIDEO then .Video
  else if guid = WPD_CONTENT_TYPE_VIDEO_ALBUM then .VideoAlbum
  else if guid = WPD_CONTENT_TYPE_WIRELESS_PROFILE then .WirelessProfile
  else .Unknown

/-- `ObjectType::as_guid` (`src/object/object_type.rs`). Both `All` and
`Unknown` map to `WPD_CONTENT_TYPE_ALL`. -/
def ObjectType.as_guid : ObjectType → GUID
  | .Appointment => WPD_CONTENT_TYPE_APPOINTMENT
  | .Audio => WPD_CONTENT_TYPE_AUDIO
  | .AudioAlbum => WPD_CONTENT_TYPE_AUDIO_ALBUM
  | .Calendar => WPD_CONTENT_TYPE_CALENDAR
  | .Certificate => WPD_CONTENT_TYPE_CERTIFICATE
  | .Contact => WPD_CONTENT_TYPE_CONTACT
  | .ContactGroup => WPD_CONTENT_TYPE_CONTACT_GROUP
  | .Document => WPD_CONTENT_TYPE_DOCUMENT
  | .Email => WPD_CONTENT_TYPE_EMAIL
  | .Folder => WPD_CONTENT_TYPE_FOLDER
  | .FunctionalObject => WPD_CONTENT_TYPE_FUNCTIONAL_OBJECT
  | .GenericFile => WPD_CONTENT_TYPE_GENERIC_FILE
  | .GenericMessage => WPD_CONTENT_TYPE_GENERIC_MESSAGE
  | .Image => WPD_CONTENT_TYPE_IMAGE
  | .ImageAlbum => WPD_CONTENT_TYPE_IMAGE_ALBUM
  | .MediaCast => WPD_CONTENT_TYPE_MEDIA_CAST
  | .Memo => WPD_CONTENT_TYPE_MEMO
  | .MixedContentAlbum => WPD_CONTENT_TYPE_MIXED_CONTENT_ALBUM
  | .NetworkAssociation => WPD_CONTENT_TYPE_NETWORK_ASSOCIATION
  | .Playlist => WPD_CONTENT_TYPE_PLAYLIST
  | .Program => WPD_CONTENT_TYPE_PROGRAM
  | .Section => WPD_CONTENT_TYPE_SECTION
  | .Task => WPD_CONTENT_TYPE_TASK
  | .Television => WPD_CONTENT_TYPE_TELEVISION
  | .Unspecified => WPD_CONTENT_TYPE_UNSPECIFIED
  | .Video => WPD_CONTENT_TYPE_VIDEO
  | .VideoAlbum => WPD_CONTENT_TYPE_VIDEO_ALBUM
  | .WirelessProfile => WPD_CONTENT_TYPE_WIRELESS_PROFILE
  | .All => WPD_CONTENT_TYPE_ALL
  | .Unknown => WPD_CONTENT_TYPE_ALL

/-- `ObjectType::is_file_like` (`src/object/object_type.rs`). -/
def ObjectType.is_file_like (t : ObjectType) : Bool :=
  match t with
  | .AudioAlbum | .ContactGroup | .Folder | .FunctionalObject
  | .ImageAlbum | .MixedContentAlbum | .VideoAlbum => false
  | _ => true

/-- `windows::core::Error`, modelled by its HRESULT code. -/
structure NativeError where
  code : Int
deriving DecidableEq

/-- The native failure a `GetValues` round trip reports when the requested
object ID does not exist on the device. The exact HRESULT is driver-dependent;
the claims only depend on it being a native failure (wrapped by the `Windows`
error variants), never on its code. -/
def missingObjectError : NativeError := ⟨-2147023728⟩

/-- `ItemByPathError` from `src/error.rs`. -/
inductive ItemByPathError where
  | Windows (e : NativeError)
  | NotFound
  | AbsolutePath
deriving DecidableEq

/-- `CreateFolderError` from `src/error.rs`. -/
inductive CreateFolderError where
  | Windows (e : NativeError)
  | AlreadyExists
  | NonRelativePath
deriving DecidableEq

/-- `std::io::Error` as it appears in this crate: either a local OS error from
file-system access, or a COM failure wrapped with `ErrorKind::Other` by the
stream adapters in `src/io/mod.rs`. -/
inductive IoError where
  | os (code : Int)
  | other (wrapped : NativeError)
deriving DecidableEq

/-- `AddFileError` from `src/error.rs`. -/
inductive AddFileError where
  | Windows (e : NativeError)
  | Std (e : IoError)
  | InvalidLocalFile
  | AlreadyExists
  | UnableToCreate
deriving DecidableEq

/-- Equality of `Except` results is decidable when both components are. -/
instance {e a : Type} [DecidableEq e] [DecidableEq a] : DecidableEq (Except e a) := fun x y =>
  match x, y with
  | Except.ok u, Except.ok v =>
    if h : u = v then isTrue (by rw [h]) else isFalse (by intro hh; cases hh; exact h rfl)
  | Except.error u, Except.error v =>
    if h : u = v then isTrue (by rw [h]) else isFalse (by intro hh; cases hh; exact h rfl)
  | Except.ok _, Except.error _ => isFalse (by intro hh; cases hh)
  | Except.error _, Except.ok _ => isFalse (by intro hh; cases hh)

/-- One remote round trip (or native COM call) made by the engine. Every
embedded operation also returns the list of calls it issued, in order. -/
inductive RemoteCall where
  | getProps (objectId : String)
  | enumObjects (objectId : String)
  | cursorNext
  | createFolderCall (parentId : String) (name : String)
  | deleteCall (objectId : String) (options : Nat)
  | streamCommit (flags : Nat)
deriving DecidableEq

/-- One object record on the remote device: its ID, its parent's ID, and the
name/content-type properties a `GetValues` round trip reports for it. Per the
WPD protocol, the device root object reports the empty string as its parent
ID (the empty string is itself not a valid object ID). -/
structure ObjRecord where
  id : String
  parentId : String
  name : String
  ty : ObjectType
deriving DecidableEq

/-- The remote device's content tree: the authoritative list of object
records, in device enumeration order. -/
structure DeviceTree where
  objects : List ObjRecord
deriving DecidableEq

/-- `Content` from `src/device/content.rs`: the session handle held by every
object. The COM `IPortableDeviceContent` is modelled by the device tree it
gives access to, next to the `case_sensitive_fs` flag set at session open. -/
structure Content where
  tree : DeviceTree
  case_sensitive_fs : Bool
deriving DecidableEq

/-- `Object` from `src/object/mod.rs`: ID, display name and content-type tag,
snapshotted at construction. (The source's `device_content` field is passed
explicitly to each embedded method instead of being stored.) -/
structure Object where
  id : String
  name : String
  ty : ObjectType
deriving DecidableEq

/-- `WPD_DEVICE_OBJECT_ID`: the fixed ID of the device root object. -/
def WPD_DEVICE_OBJECT_ID : String := "DEVICE"

/-- `Content::object_by_id` (`src/device/content.rs`): one `GetValues` round
trip for the name and content-type keys, then an `Object` snapshot carrying
the requested ID. The round trip fails natively when the ID does not exist on
the device. -/
def Content.object_by_id (c : Content) (object_id : String) :
    Except NativeError Object × List RemoteCall :=
  match c.tree.objects.find? (fun r => r.id == object_id) with
  | some r =>
    (Except.ok { id := object_id, name := r.name, ty := r.ty }, [RemoteCall.getProps object_id])
  | none => (Except.error missingObjectError, [RemoteCall.getProps object_id])

/-- `Content::root` (`src/device/content.rs`). -/
def Content.root (c : Content) : Except NativeError Object × List RemoteCall :=
  c.object_by_id WPD_DEVICE_OBJECT_ID

/-- `Object::parent_id` (`src/object/mod.rs`): one `GetValues` round trip for
the `WPD_OBJECT_PARENT_ID` key of this object. -/
def Object.parent_id (self : Object) (c : Content) :
    Except NativeError String × List RemoteCall :=
  match c.tree.objects.find? (fun r => r.id == self.id) with
  | some r => (Except.ok r.parentId, [RemoteCall.getProps self.id])
  | none => (Except.error missingObjectError, [RemoteCall.getProps self.id])

/-- One response of the device-side cursor (`IEnumPortableDeviceObjectIDs`)
to a `Next(1, ..)` call: a native failure, a short read (zero IDs returned,
i.e. natural exhaustion), or one object ID. -/
inductive NextResult where
  | err (e : NativeError)
  | exhausted
  | item (objectId : String)
deriving DecidableEq

/-- `ObjectIterator::next` (`src/object/object_iterator.rs`), one step of the
lazy child sequence: issue one cursor `Next` round trip; `.ok().ok()?` turns a
native failure into `none`, a short read (`requested != 1`) yields `none`, and
a returned ID is resolved by `object_by_id`, whose failure is also turned into
`none` by the trailing `.ok()`. Returns the yielded item, the rest of the
cursor script, and the calls issued. (An empty script stands for a cursor
that only reports exhaustion.) -/
def objIterNext (c : Content) :
    List NextResult → Option Object × List NextResult × List RemoteCall
  | [] => (none, [], [RemoteCall.cursorNext])
  | NextResult.err _ :: rest => (none, rest, [RemoteCall.cursorNext])
  | NextResult.exhausted :: rest => (none, rest, [RemoteCall.cursorNext])
  | NextResult.item oid :: rest =>
    match c.object_by_id oid with
    | (Except.ok obj, tr) => (some obj, rest, RemoteCall.cursorNext :: tr)
    | (Except.error _, tr) => (none, rest, RemoteCall.cursorNext :: tr)

/-- The cursor script a well-behaved device produces for
`EnumObjects(objectId)`: each child's ID in tree order, then exhaustion. -/
def cursorResponses (c : Content) (object_id : String) : List NextResult :=
  (c.tree.objects.filter (fun r => r.parentId == object_id)).map
      (fun r => NextResult.item r.id)
    ++ [NextResult.exhausted]

/-- The `children()?.find(|obj| obj.name() == haystack)` loop of
`object_by_components` (`src/object/mod.rs` line 101): repeated
`ObjectIterator::next` steps until a yielded object's name equals the
haystack under exact `U16CString` equality. A cursor failure or a per-child
resolution failure ends the search with `none`, exactly as in
`ObjectIterator::next`. -/
def findChildByName (c : Content) (haystack : String) :
    List NextResult → Option Object × List RemoteCall
  | [] => (none, [RemoteCall.cursorNext])
  | NextResult.err _ :: _ => (none, [RemoteCall.cursorNext])
  | NextResult.exhausted :: _ => (none, [RemoteCall.cursorNext])
  | NextResult.item oid :: rest =>
    match c.object_by_id oid with
    | (Except.error _, tr) => (none, RemoteCall.cursorNext :: tr)
    | (Except.ok obj, tr) =>
      if obj.name == haystack then (some obj, RemoteCall.cursorNext :: tr)
      else
        let (res, tr2) := findChildByName c haystack rest
        (res, (RemoteCall.cursorNext :: tr) ++ tr2)

/-- `std::path::Component` as consumed by `object_by_components`: `normal`
(Rust `Normal`), `curDir` (`.`), `parentDir` (`..`), `rootDir` (a leading
separator) and `drive` (Rust's drive-like path prefix component, with its
text). -/
inductive Component where
  | normal (name : String)
  | curDir
  | parentDir
  | rootDir
  | drive (text : String)
deriving DecidableEq

/-- `Object::object_by_components` together with
`object_by_components_last_stage` (`src/object/mod.rs`): iterative descent
consuming one component per step. In the `Normal` branch, `self.children()`
issues the `EnumObjects` round trip and the `find` walks the lazy iterator
comparing names with exact equality; the last stage peeks at the remaining
components (no round trip) and either returns the candidate or recurses on
it. The `ParentDir` branch issues the `parent_id` property fetch and then
resolves that ID; either failure is wrapped as `ItemByPathError::Windows`. -/
def Object.object_by_components (c : Content) :
    Object → List Component → Except ItemByPathError Object × List RemoteCall
  | _, [] => (Except.error ItemByPathError.NotFound, [])
  | self, Component.normal name :: rest =>
    let (found, ftr) := findChildByName c name (cursorResponses c self.id)
    let tr := RemoteCall.enumObjects self.id :: ftr
    match found with
    | none => (Except.error ItemByPathError.NotFound, tr)
    | some candidate =>
      match rest with
      | [] => (Except.ok candidate, tr)
      | _ :: _ =>
        let (res, tr2) := Object.object_by_components c candidate rest
        (res, tr ++ tr2)
  | self, Component.curDir :: rest =>
    match rest with
    | [] => (Except.ok self, [])
    | _ :: _ => Object.object_by_components c self rest
  | self, Component.parentDir :: rest =>
    match self.parent_id c with
    | (Except.error e, tr) => (Except.error (ItemByPathError.Windows e), tr)
    | (Except.ok pid, tr) =>
      match c.object_by_id pid with
      | (Except.error e, tr2) => (Except.error (ItemByPathError.Windows e), tr ++ tr2)
      | (Except.ok candidate, tr2) =>
        match rest with
        | [] => (Except.ok candidate, tr ++ tr2)
        | _ :: _ =>
          let (res, tr3) := Object.object_by_components c candidate rest
          (res, tr ++ tr2 ++ tr3)
  | _, Component.drive _ :: _ => (Except.error ItemByPathError.AbsolutePath, [])
  | _, Component.rootDir :: _ => (Except.error ItemByPathError.AbsolutePath, [])

/-- Character-level lowercasing, modelling Rust `str::to_lowercase` as used
by `are_path_eq` (per-character case folding; the names the claims exercise
are ASCII, where this coincides with Rust's Unicode lowercasing). -/
def to_lowercase (s : String) : String := ⟨s.data.map Char.toLower⟩

/-- `are_path_eq` (`src/utils.rs`): exact comparison when `case_sensitive`,
case-folded comparison otherwise. (The UTF conversions, which the source
turns into `false` on failure, always succeed in this model of valid Unicode
strings.) NOTE: this helper is defined in the source but never called by the
path-resolution code. -/
def are_path_eq (left : String) (right : String) (case_sensitive : Bool) : Bool :=
  if case_sensitive then left == right
  else to_lowercase left == to_lowercase right

/-- A small concrete device for concrete evaluations: the device root, one
storage object, and a folder named "Download" inside the storage. The session
was opened with `case_sensitive_fs := false` (a case-insensitive device). -/
def sampleContent : Content :=
  { tree := { objects := [
      { id := "DEVICE", parentId := "", name := "My phone", ty := ObjectType.FunctionalObject },
      { id := "s10001", parentId := "DEVICE", name := "Internal storage", ty := ObjectType.FunctionalObject },
      { id := "o2", parentId := "s10001", name := "Download", ty := ObjectType.Folder } ] },
    case_sensitive_fs := false }

/-- The `Object` snapshot of the storage record of `sampleContent`. -/
def sampleStorage : Object :=
  { id := "s10001", name := "Internal storage", ty := ObjectType.FunctionalObject }

/-- The `Object` snapshot of the root record of `sampleContent`. -/
def sampleRoot : Object :=
  { id := "DEVICE", name := "My phone", ty := ObjectType.FunctionalObject }

/-- The `Object` snapshot of the "Download" folder of `sampleContent`. -/
def sampleDownload : Object :=
  { id := "o2", name := "Download", ty := ObjectType.Folder }

/-- A COM `IStream` obtained from the device, modelled by the outcomes of the
native calls made through it: the aggregate outcome of pushing a byte
sequence through repeated `Write` round trips (as `std::io::copy` does,
returning the total bytes written), and the outcome of a `Commit(flags)`
round trip. -/
structure ComStream where
  writeAll : List Nat → Except NativeError Nat
  commitBehavior : Nat → Except NativeError Unit

/-- `STGC_DEFAULT`. -/
def STGC_DEFAULT : Nat := 0

/-- `WriteStream` from `src/io/mod.rs`: a COM stream plus the device-advised
optimal transfer size. -/
structure WriteStream where
  stream : ComStream
  optimal_transfer_size : Nat

/-- `WriteStream::commit` (`src/io/mod.rs`): one native `Commit(STGC_DEFAULT)`
call on the underlying COM stream, whose result is returned verbatim. -/
def WriteStream.commit (s : WriteStream) : Except NativeError Unit × List RemoteCall :=
  (s.stream.commitBehavior STGC_DEFAULT, [RemoteCall.streamCommit STGC_DEFAULT])

/-- `WriteStream::flush` (`src/io/mod.rs`): calls `commit` and wraps its
native failure into a `std::io::Error` of kind `Other`; there is no local
buffer to drain. -/
def WriteStream.flush (s : WriteStream) : Except IoError Unit × List RemoteCall :=
  match s.commit with
  | (Except.ok _, tr) => (Except.ok (), tr)
  | (Except.error e, tr) => (Except.error (IoError.other e), tr)

/-- `PORTABLE_DEVICE_DELETE_NO_RECURSION` (WPD `DELETE_OBJECT_OPTIONS`). -/
def PORTABLE_DEVICE_DELETE_NO_RECURSION : Nat := 0

/-- `PORTABLE_DEVICE_DELETE_WITH_RECURSION` (WPD `DELETE_OBJECT_OPTIONS`). -/
def PORTABLE_DEVICE_DELETE_WITH_RECURSION : Nat := 1

/-- The observable outcome of a Rust function that may panic: either it
returns its `Result`, or it panics (aborting the caller, returning
nothing). -/
inductive RustOutcome (e a : Type) where
  | returned (v : Except e a)
  | panicked
deriving DecidableEq

/-- `Object::delete` (`src/object/mod.rs`): builds the propvariant collection
(local COM calls, themselves `.unwrap()`ed), chooses the options flag from
the `recursive` argument, issues the native `Delete` round trip — and calls
`.unwrap()` on its result, so a native failure panics; on native success the
function ignores `result_status` and returns `Ok(())`. `nativeDelete`
scripts the device's response to the Delete round trip, given the object ID
and the options flag. -/
def Object.delete (self : Object) (recursive : Bool)
    (nativeDelete : String → Nat → Except NativeError Unit) :
    RustOutcome NativeError Unit × List RemoteCall :=
  let options := if recursive then PORTABLE_DEVICE_DELETE_WITH_RECURSION
                 else PORTABLE_DEVICE_DELETE_NO_RECURSION
  match nativeDelete self.id options with
  | Except.ok _ => (RustOutcome.returned (Except.ok ()), [RemoteCall.deleteCall self.id options])
  | Except.error _ => (RustOutcome.panicked, [RemoteCall.deleteCall self.id options])

/-- `Object::create_subfolder` (`src/object/mod.rs`): pre-flight resolution
of `folder_name` under `self` via `object_by_path` (for a plain folder name,
a single `Normal` component); if it resolves, fail fast with `AlreadyExists`
and issue no create call. Otherwise build the property bag
(`make_values_for_create_folder`: local COM calls scripted by `mkValues`,
whose failure propagates as `Windows`), then issue the native
`CreateObjectWithPropertiesOnly` round trip (scripted by `nativeCreate`) and
return the freshly created object's ID. -/
def Object.create_subfolder (c : Content) (self : Object) (folder_name : String)
    (mkValues : Except NativeError Unit) (nativeCreate : Except NativeError String) :
    Except CreateFolderError String × List RemoteCall :=
  match Object.object_by_components c self [Component.normal folder_name] with
  | (Except.ok _, tr) => (Except.error CreateFolderError.AlreadyExists, tr)
  | (Except.error _, tr) =>
    match mkValues with
    | Except.error e => (Except.error (CreateFolderError.Windows e), tr)
    | Except.ok _ =>
      match nativeCreate with
      | Except.error e =>
        (Except.error (CreateFolderError.Windows e),
          tr ++ [RemoteCall.createFolderCall self.id folder_name])
      | Except.ok created_object_id =>
        (Except.ok created_object_id,
          tr ++ [RemoteCall.createFolderCall self.id folder_name])

/-- A local file passed to `push_file`, modelled by the outcomes of the
local-filesystem operations the source performs on it: `file_name()` (which
is `None` for paths without a final component), `metadata()` (giving the
byte length), and `File::open` (giving the byte contents). -/
structure LocalFile where
  file_name : Option String
  metadata_len : Except IoError Nat
  open_result : Except IoError (List Nat)

/-- `std::io::copy` from the opened local file into a `WriteStream`
(`src/io/mod.rs` `Write` impl): the bytes are pushed through repeated native
`Write` round trips, aggregated by the stream's `writeAll` behavior; a
native failure is wrapped into a `std::io::Error` of kind `Other`. -/
def io_copy (source : List Nat) (dest : WriteStream) : Except IoError Nat :=
  match dest.stream.writeAll source with
  | Except.error e => Except.error (IoError.other e)
  | Except.ok n => Except.ok n

/-- `Object::push_file` (`src/object/mod.rs`): derive the file name (else
`InvalidLocalFile`), fetch the local metadata and open the local file (local
IO failures propagate as `Std`), build the property bag (`mkValues`, failure
as `Windows`), issue the native `CreateObjectWithPropertiesAndData` round
trip (`createWithData`, failure as `Windows`), require the returned write
handle (`None` gives `UnableToCreate`), copy all bytes (failure as `Std`),
then commit (failure as `Windows`). There is no duplicate-name pre-flight:
the function never consults the device tree or enumerates children. -/
def Object.push_file (_self : Object) (local_file : LocalFile)
    (mkValues : Except NativeError Unit)
    (createWithData : Except NativeError (Option ComStream × Nat)) :
    Except AddFileError Unit :=
  match local_file.file_name with
  | none => Except.error AddFileError.InvalidLocalFile
  | some _ =>
    match local_file.metadata_len with
    | Except.error e => Except.error (AddFileError.Std e)
    | Except.ok _ =>
      match local_file.open_result with
      | Except.error e => Except.error (AddFileError.Std e)
      | Except.ok source =>
        match mkValues with
        | Except.error e => Except.error (AddFileError.Windows e)
        | Except.ok _ =>
          match createWithData with
          | Except.error e => Except.error (AddFileError.Windows e)
          | Except.ok (none, _) => Except.error AddFileError.UnableToCreate
          | Except.ok (some stream, optimal_write_buffer_size) =>
            let dest_writer : WriteStream :=
              { stream := stream, optimal_transfer_size := optimal_write_buffer_size }
            match io_copy source dest_writer with
            | Except.error e => Except.error (AddFileError.Std e)
            | Except.ok _ =>
              match (dest_writer.commit).1 with
              | Except.error e => Except.error (AddFileError.Windows e)
              | Except.ok _ => Except.ok ()

end Winmtp

/-- C10: for every content-type tag other than `All`, `from_guid (as_guid t)`
yields `t` again; for `All` the round trip yields `Unknown` (because
`as_guid All = WPD_CONTENT_TYPE_ALL`, which `from_guid` does not recognize). -/
theorem c10_object_type_guid_roundtrip :
    ∀ t : Winmtp.ObjectType,
      Winmtp.ObjectType.from_guid (Winmtp.ObjectType.as_guid t) =
        if t = Winmtp.ObjectType.All then Winmtp.ObjectType.Unknown else t := by
  intro t
  cases t <;> rfl

open Winmtp

/-- C1: path resolution is claimed to select the first child whose name
matches the component under the session's case-sensitivity flag (case-folded
comparison when `case_sensitive_fs` is false). Evaluation at the failing
input: on a case-insensitive session (`case_sensitive_fs = false`) holding a
child named "Download", the source's own case-folding comparator
`are_path_eq` matches "download", yet `object_by_components` fails with
`NotFound` because it compares names with exact equality and never consults
the flag; the exact-case spelling is required instead. -/
theorem c1_case_insensitive_flag_ignored :
    sampleContent.case_sensitive_fs = false ∧
    are_path_eq "Download" "download" false = true ∧
    (Object.object_by_components sampleContent sampleStorage
        [Component.normal "download"]).1 = Except.error ItemByPathError.NotFound ∧
    (Object.object_by_components sampleContent sampleStorage
        [Component.normal "Download"]).1 = Except.ok sampleDownload := by
  decide

/-- C3 (amended): resolving ".." from an object whose reported parent ID
resolves on the device returns that parent; resolving ".." from the tree's
root — whose reported parent ID (the empty string) is not a resolvable
object — fails with the wrapped native error `ItemByPathError.Windows`
produced by the failed `object_by_id` round trip, not with `NotFound`. -/
theorem c3_parentdir_resolution (c : Content) (self : Object) (r : ObjRecord)
    (hfind : c.tree.objects.find? (fun q => q.id == self.id) = some r) :
    (∀ pr : ObjRecord,
        c.tree.objects.find? (fun q => q.id == r.parentId) = some pr →
        (Object.object_by_components c self [Component.parentDir]).1
          = Except.ok { id := r.parentId, name := pr.name, ty := pr.ty }) ∧
    (c.tree.objects.find? (fun q => q.id == r.parentId) = none →
        (Object.object_by_components c self [Component.parentDir]).1
          = Except.error (ItemByPathError.Windows missingObjectError)) := by
  constructor
  · intro pr hpr
    simp [Object.object_by_components, Object.parent_id, Content.object_by_id, hfind, hpr]
  · intro hnone
    simp [Object.object_by_components, Object.parent_id, Content.object_by_id, hfind, hnone]

/-- Witness for `c3_parentdir_resolution` at concrete inputs: the "Download"
folder's ".." resolves to the storage object, and the root's ".." fails with
the wrapped native error. -/
theorem c3_parentdir_resolution_witness :
    (Object.object_by_components sampleContent sampleDownload [Component.parentDir]).1
      = Except.ok sampleStorage ∧
    (Object.object_by_components sampleContent sampleRoot [Component.parentDir]).1
      = Except.error (ItemByPathError.Windows missingObjectError) := by
  constructor
  · exact (c3_parentdir_resolution sampleContent sampleDownload
      { id := "o2", parentId := "s10001", name := "Download", ty := ObjectType.Folder }
      (by decide)).1
      { id := "s10001", parentId := "DEVICE", name := "Internal storage",
        ty := ObjectType.FunctionalObject }
      (by decide)
  · exact (c3_parentdir_resolution sampleContent sampleRoot
      { id := "DEVICE", parentId := "", name := "My phone",
        ty := ObjectType.FunctionalObject }
      (by decide)).2 (by decide)

/-- C3 counterexample: on a concrete device, resolving ".." from the tree's
root (the object returned by `Content.root`) does not fail with `NotFound`
as claimed; it fails with a wrapped native `Windows` error. -/
theorem c3_root_parentdir_not_notfound :
    (Content.root sampleContent).1 = Except.ok sampleRoot ∧
    (Object.object_by_components sampleContent sampleRoot [Component.parentDir]).1
      ≠ Except.error ItemByPathError.NotFound ∧
    (Object.object_by_components sampleContent sampleRoot [Component.parentDir]).1
      = Except.error (ItemByPathError.Windows missingObjectError) := by
  decide

/-- C6: a path whose first component is a root separator or a drive-like
prefix fails with `AbsolutePath` regardless of the remaining components
(and of the device state), and the empty call trace shows that no remote
round trip is issued for them. -/
theorem c6_absolute_component_rejected :
    ∀ (c : Content) (self : Object) (rest : List Component) (text : String),
      Object.object_by_components c self (Component.rootDir :: rest)
        = (Except.error ItemByPathError.AbsolutePath, ([] : List RemoteCall)) ∧
      Object.object_by_components c self (Component.drive text :: rest)
        = (Except.error ItemByPathError.AbsolutePath, ([] : List RemoteCall)) := by
  intro c self rest text
  exact ⟨rfl, rfl⟩

/-- C7: resolving an empty component sequence from any starting object on
any device fails with `NotFound` (it never returns the starting object). -/
theorem c7_empty_components_notfound :
    ∀ (c : Content) (self : Object),
      Object.object_by_components c self []
        = (Except.error ItemByPathError.NotFound, ([] : List RemoteCall)) := by
  intro c self
  rfl

/-- C2 counterexample: on a concrete session, a failing cursor `Next` round
trip and a failing per-child property fetch are not surfaced as errors:
`ObjectIterator::next` yields `none` in both cases — the very same result as
a naturally exhausted cursor (and its `Option Object` return type has no
error to surface). -/
theorem c2_failure_treated_as_exhaustion :
    (objIterNext sampleContent [NextResult.err { code := -2147023436 }]).1 = none ∧
    (objIterNext sampleContent [NextResult.item "nonexistent"]).1 = none ∧
    (objIterNext sampleContent [NextResult.exhausted]).1 = none := by
  decide

/-- C2 (amended): a failing remote round trip while iterating children is
locally swallowed rather than surfaced: a failing cursor `Next` call makes
`ObjectIterator::next` return `none` (ending the iteration exactly like
natural exhaustion), and a failing per-child property fetch does the same. -/
theorem c2_iterator_failures_end_iteration :
    (∀ (c : Content) (e : NativeError) (rest : List NextResult),
        (objIterNext c (NextResult.err e :: rest)).1 = none) ∧
    (∀ (c : Content) (oid : String) (rest : List NextResult),
        c.tree.objects.find? (fun r => r.id == oid) = none →
        (objIterNext c (NextResult.item oid :: rest)).1 = none) := by
  constructor
  · intro c e rest
    rfl
  · intro c oid rest hnone
    simp [objIterNext, Content.object_by_id, hnone]

/-- Witness for `c2_iterator_failures_end_iteration` at concrete inputs. -/
theorem c2_iterator_failures_end_iteration_witness :
    (objIterNext sampleContent [NextResult.err { code := -2147023436 }]).1 = none ∧
    (objIterNext sampleContent [NextResult.item "nonexistent"]).1 = none := by
  exact ⟨c2_iterator_failures_end_iteration.1 sampleContent { code := -2147023436 } [],
    c2_iterator_failures_end_iteration.2 sampleContent "nonexistent" [] (by decide)⟩

/-- C8: `flush` performs exactly the calls of `commit` — one native
`Commit(STGC_DEFAULT)` round trip, no local buffer draining — and succeeds
exactly when that commit succeeds; in particular a successful flush implies
the commit was performed. -/
theorem c8_flush_invokes_commit :
    ∀ s : WriteStream,
      (s.flush).2 = [RemoteCall.streamCommit STGC_DEFAULT] ∧
      (s.flush).2 = (s.commit).2 ∧
      ((s.flush).1 = Except.ok () ↔ (s.commit).1 = Except.ok ()) := by
  intro s
  cases h : s.stream.commitBehavior STGC_DEFAULT with
  | error e => simp [WriteStream.flush, WriteStream.commit, h]
  | ok v => simp [WriteStream.flush, WriteStream.commit, h]

/-- C4: when the native delete round trip fails, `Object::delete` does not
surface the failure as an error result: the `.unwrap()` in the source makes
it panic, and no wrapped error value is ever returned to the caller. -/
theorem c4_delete_native_failure_panics :
    ∀ (self : Object) (recursive : Bool)
      (nativeDelete : String → Nat → Except NativeError Unit) (e : NativeError),
      nativeDelete self.id
          (if recursive then PORTABLE_DEVICE_DELETE_WITH_RECURSION
           else PORTABLE_DEVICE_DELETE_NO_RECURSION) = Except.error e →
      (Object.delete self recursive nativeDelete).1 = RustOutcome.panicked ∧
      ∀ e2 : NativeError,
        (Object.delete self recursive nativeDelete).1
          ≠ RustOutcome.returned (Except.error e2) := by
  intro self recursive nd e h
  refine ⟨?_, ?_⟩
  · simp [Object.delete, h]
  · intro e2
    simp [Object.delete, h]

/-- Witness for `c4_delete_native_failure_panics`: deleting the "Download"
folder when the device refuses the Delete round trip panics instead of
returning the wrapped failure. -/
theorem c4_delete_native_failure_panics_witness :
    (Object.delete sampleDownload true
        (fun _ _ => Except.error { code := -2147024809 })).1 = RustOutcome.panicked ∧
    (Object.delete sampleDownload true
        (fun _ _ => Except.error { code := -2147024809 })).1
      ≠ RustOutcome.returned (Except.error { code := -2147024809 }) := by
  have h := c4_delete_native_failure_panics sampleDownload true
    (fun _ _ => Except.error { code := -2147024809 }) { code := -2147024809 } rfl
  exact ⟨h.1, h.2 { code := -2147024809 }⟩

/-- `Content::object_by_id` issues exactly one property-fetch round trip. -/
theorem object_by_id_trace (c : Content) (oid : String) :
    (c.object_by_id oid).2 = [RemoteCall.getProps oid] := by
  cases h : c.tree.objects.find? (fun r => r.id == oid) with
  | none => simp [Content.object_by_id, h]
  | some r => simp [Content.object_by_id, h]

/-- `Object::parent_id` issues exactly one property-fetch round trip. -/
theorem parent_id_trace (self : Object) (c : Content) :
    (self.parent_id c).2 = [RemoteCall.getProps self.id] := by
  cases h : c.tree.objects.find? (fun r => r.id == self.id) with
  | none => simp [Object.parent_id, h]
  | some r => simp [Object.parent_id, h]

/-- The child-search loop never issues a create call. -/
theorem findChildByName_no_create (c : Content) (hay : String) :
    ∀ (resps : List NextResult) (p n : String),
      RemoteCall.createFolderCall p n ∉ (findChildByName c hay resps).2 := by
  intro resps
  induction resps with
  | nil => intro p n; simp [findChildByName]
  | cons head rest ih =>
    intro p n
    cases head with
    | err e => simp [findChildByName]
    | exhausted => simp [findChildByName]
    | item oid =>
      rcases hob : c.object_by_id oid with ⟨res, tr⟩
      have htr : tr = [RemoteCall.getProps oid] := by
        have h2 := object_by_id_trace c oid
        rw [hob] at h2
        exact h2
      subst htr
      cases res with
      | error e => simp [findChildByName, hob]
      | ok obj =>
        cases hname : obj.name == hay with
        | true => simp [findChildByName, hob, hname]
        | false =>
          rcases hrec : findChildByName c hay rest with ⟨res2, tr2⟩
          have h3 : RemoteCall.createFolderCall p n ∉ tr2 := by
            have h4 := ih p n
            rw [hrec] at h4
            exact h4
          simp [findChildByName, hob, hname, hrec]
          exact h3

/-- Path resolution never issues a create call: its trace consists only of
enumeration, cursor and property-fetch round trips. -/
theorem object_by_components_no_create (c : Content) :
    ∀ (comps : List Component) (self : Object) (p n : String),
      RemoteCall.createFolderCall p n ∉ (Object.object_by_components c self comps).2 := by
  intro comps
  induction comps with
  | nil => intro self p n; simp [Object.object_by_components]
  | cons head rest ih =>
    intro self p n
    cases head with
    | normal name =>
      rcases hfind : findChildByName c name (cursorResponses c self.id) with ⟨found, ftr⟩
      have hftr : RemoteCall.createFolderCall p n ∉ ftr := by
        have h2 := findChildByName_no_create c name (cursorResponses c self.id) p n
        rw [hfind] at h2
        exact h2
      cases found with
      | none =>
        simp [Object.object_by_components, hfind]
        exact hftr
      | some candidate =>
        cases rest with
        | nil =>
          simp [Object.object_by_components, hfind]
          exact hftr
        | cons r2 rest2 =>
          rcases hrec : Object.object_by_components c candidate (r2 :: rest2) with ⟨res2, tr2⟩
          have h3 : RemoteCall.createFolderCall p n ∉ tr2 := by
            have h4 := ih candidate p n
            rw [hrec] at h4
            exact h4
          simp [Object.object_by_components, hfind, hrec]
          exact ⟨hftr, h3⟩
    | curDir =>
      cases rest with
      | nil => simp [Object.object_by_components]
      | cons r2 rest2 =>
        simp only [Object.object_by_components]
        exact ih self p n
    | parentDir =>
      rcases hp : self.parent_id c with ⟨pres, ptr⟩
      have hptr : ptr = [RemoteCall.getProps self.id] := by
        have h2 := parent_id_trace self c
        rw [hp] at h2
        exact h2
      subst hptr
      cases pres with
      | error e => simp [Object.object_by_components, hp]
      | ok pid =>
        rcases hob : c.object_by_id pid with ⟨ores, otr⟩
        have hotr : otr = [RemoteCall.getProps pid] := by
          have h2 := object_by_id_trace c pid
          rw [hob] at h2
          exact h2
        subst hotr
        cases ores with
        | error e => simp [Object.object_by_components, hp, hob]
        | ok candidate =>
          cases rest with
          | nil => simp [Object.object_by_components, hp, hob]
          | cons r2 rest2 =>
            rcases hrec : Object.object_by_components c candidate (r2 :: rest2) with ⟨res2, tr2⟩
            have h3 : RemoteCall.createFolderCall p n ∉ tr2 := by
              have h4 := ih candidate p n
              rw [hrec] at h4
              exact h4
            simp [Object.object_by_components, hp, hob, hrec]
            exact h3
    | rootDir => simp [Object.object_by_components]
    | drive t => simp [Object.object_by_components]

/-- C5: `create_subfolder`'s client-side duplicate pre-flight. If the folder
name already resolves under the parent, the call fails with `AlreadyExists`
and its call trace contains no `CreateObjectWithPropertiesOnly` call; in the
other case (pre-flight resolution failed), when the property bag builds and
the native create round trip succeeds, the native create call is issued and
the new object's ID is returned. -/
theorem c5_create_subfolder_preflight :
    ∀ (c : Content) (self : Object) (folder_name : String)
      (mkValues : Except NativeError Unit) (nativeCreate : Except NativeError String),
      ((∃ obj, (Object.object_by_components c self [Component.normal folder_name]).1
          = Except.ok obj) →
        (Object.create_subfolder c self folder_name mkValues nativeCreate).1
            = Except.error CreateFolderError.AlreadyExists ∧
        ∀ p n, RemoteCall.createFolderCall p n
            ∉ (Object.create_subfolder c self folder_name mkValues nativeCreate).2) ∧
      (∀ newId : String,
        (∃ err, (Object.object_by_components c self [Component.normal folder_name]).1
            = Except.error err) →
        mkValues = Except.ok () →
        nativeCreate = Except.ok newId →
        (Object.create_subfolder c self folder_name mkValues nativeCreate).1
            = Except.ok newId ∧
        RemoteCall.createFolderCall self.id folder_name
            ∈ (Object.create_subfolder c self folder_name mkValues nativeCreate).2) := by
  intro c self folder_name mkValues nativeCreate
  rcases hres : Object.object_by_components c self [Component.normal folder_name]
    with ⟨res, tr⟩
  have htr : ∀ p n, RemoteCall.createFolderCall p n ∉ tr := by
    intro p n
    have h2 := object_by_components_no_create c [Component.normal folder_name] self p n
    rw [hres] at h2
    exact h2
  constructor
  · rintro ⟨obj, hobj⟩
    cases res with
    | error e => simp at hobj
    | ok v =>
      constructor
      · simp [Object.create_subfolder, hres]
      · intro p n
        simp [Object.create_subfolder, hres]
        exact htr p n
  · rintro newId ⟨err, herr⟩ hmk hnc
    cases res with
    | ok v => simp at herr
    | error e =>
      subst hmk
      subst hnc
      constructor
      · simp [Object.create_subfolder, hres]
      · simp [Object.create_subfolder, hres]

/-- Witness for `c5_create_subfolder_preflight` at concrete inputs: creating
"Download" under the storage (which already has such a child) fails with
`AlreadyExists`, and creating "Movies" (no such child) returns the native
call's fresh ID. -/
theorem c5_create_subfolder_preflight_witness :
    ((Object.create_subfolder sampleContent sampleStorage "Download"
        (Except.ok ()) (Except.ok "o99")).1
      = Except.error CreateFolderError.AlreadyExists ∧
     ∀ p n, RemoteCall.createFolderCall p n
        ∉ (Object.create_subfolder sampleContent sampleStorage "Download"
            (Except.ok ()) (Except.ok "o99")).2) ∧
    ((Object.create_subfolder sampleContent sampleStorage "Movies"
        (Except.ok ()) (Except.ok "o99")).1 = Except.ok "o99" ∧
     RemoteCall.createFolderCall "s10001" "Movies"
        ∈ (Object.create_subfolder sampleContent sampleStorage "Movies"
            (Except.ok ()) (Except.ok "o99")).2) := by
  constructor
  · exact (c5_create_subfolder_preflight sampleContent sampleStorage "Download"
      (Except.ok ()) (Except.ok "o99")).1 ⟨sampleDownload, by decide⟩
  · exact (c5_create_subfolder_preflight sampleContent sampleStorage "Movies"
      (Except.ok ()) (Except.ok "o99")).2 "o99"
      ⟨ItemByPathError.NotFound, by decide⟩ rfl rfl

/-- C9: `push_file` can fail with `InvalidLocalFile`, `Std`, `Windows` or
`UnableToCreate`, but the `AlreadyExists` variant of `AddFileError` is
unreachable: no duplicate-name pre-flight is performed (the function never
consults the device tree) and no code path produces that variant. -/
theorem c9_push_file_never_already_exists :
    ∀ (self : Object) (local_file : LocalFile) (mkValues : Except NativeError Unit)
      (createWithData : Except NativeError (Option ComStream × Nat)),
      Object.push_file self local_file mkValues createWithData
        ≠ Except.error AddFileError.AlreadyExists := by
  intro self local_file mkValues createWithData h
  simp only [Object.push_file] at h
  repeat' split at h
  all_goals simp_all

/-- Witness for `c9_push_file_never_already_exists` at a concrete input. -/
theorem c9_push_file_never_already_exists_witness :
    Object.push_file sampleDownload
        { file_name := some "a.txt", metadata_len := Except.ok 3,
          open_result := Except.ok [1, 2, 3] }
        (Except.ok ())
        (Except.error { code := -2147024809 })
      ≠ Except.error AddFileError.AlreadyExists :=
  c9_push_file_never_already_exists sampleDownload
    { file_name := some "a.txt", metadata_len := Except.ok 3,
      open_result := Except.ok [1, 2, 3] }
    (Except.ok ())
    (Except.error { code := -2147024809 })
